import Mathlib

/-!
Verification of the badge-league bot's core logic against its specification.

The definitions below are a shallow embedding of the authoritative source
variant, the `badge_league_bot` package (the spec's design notes declare the
stand-alone `league_bot.py` variant buggy and non-authoritative):

* `src/badge_league_bot/utils/elo.py` — rating engine (`calculate_elo_change`,
  `get_rank`) over the constants of `src/badge_league_bot/constants.py`;
* `src/badge_league_bot/database/db.py` — the relational schema (tables
  `players`, `leagues`, `league_players`, `matches`), including the UNIQUE /
  PRIMARY KEY constraints and the foreign-key enforcement switched on by
  `PRAGMA foreign_keys = ON`;
* the command handlers of `src/badge_league_bot/commands/*.py`
  (`register`, `create_league`, `join_league`, `schedule`, `report`).

Ratings are embedded as real numbers (the Python code computes
`10 ** ((loser - winner) / 400)` in floating point; the claims are about the
real-valued formula).  The rank-table lookup only ever compares a rating
against decimal constants, so it is embedded over `ℚ` — which contains every
value a float can take — to keep it executable; the unbounded upper limit
`float('inf')` of the Grandmaster band is embedded as an absent upper bound.
Row fields never read by any handler (timestamps) are omitted.  Errors are
named after the spec's taxonomy: an SQLite `IntegrityError` whose message
mentions a UNIQUE/PRIMARY KEY constraint surfaces as the corresponding
"already exists" error of the failing statement, and a FOREIGN KEY failure
surfaces as `constraintViolation`.
-/

namespace BadgeLeague

/-! ### Rating engine (`src/badge_league_bot/utils/elo.py`) -/

/-- `K_FACTOR = 32` from `constants.py`. -/
noncomputable def K_FACTOR : ℝ := 32

/-- `calculate_elo_change(winner_elo, loser_elo)` from `elo.py`:
`expected_winner = 1 / (1 + 10 ** ((loser_elo - winner_elo) / 400))`,
`expected_loser = 1 - expected_winner`, and the returned pair is
`(K * (1 - expected_winner), K * (0 - expected_loser))`. -/
noncomputable def calculate_elo_change (winner_elo loser_elo : ℝ) : ℝ × ℝ :=
  let expected_winner : ℝ := 1 / (1 + (10 : ℝ) ^ ((loser_elo - winner_elo) / 400))
  let expected_loser : ℝ := 1 - expected_winner
  (K_FACTOR * (1 - expected_winner), K_FACTOR * (0 - expected_loser))

/-- One entry of the `RANKS` table of `constants.py`: a tier name with an
inclusive rating range.  `max_elo = none` embeds the `float('inf')` upper
bound of the Grandmaster band. -/
structure RankBand where
  rank : String
  min_elo : ℚ
  max_elo : Option ℚ
deriving DecidableEq

/-- The `RANKS` dictionary of `constants.py`, in its iteration order. -/
def RANKS : List RankBand :=
  [⟨"Iron", 0, some 899⟩,
   ⟨"Bronze", 900, some 1199⟩,
   ⟨"Silver", 1200, some 1499⟩,
   ⟨"Gold", 1500, some 1799⟩,
   ⟨"Platinum", 1800, some 2099⟩,
   ⟨"Diamond", 2100, some 2399⟩,
   ⟨"Master", 2400, some 2699⟩,
   ⟨"Grandmaster", 2700, none⟩]

/-- The `RANK_EMOJIS` dictionary of `constants.py`; every value there is the
empty string. -/
def RANK_EMOJIS (_rank : String) : String := ""

/-- The guard `min_elo <= elo <= max_elo` of `get_rank`; an absent upper
bound (Python `float('inf')`) is satisfied by every rating. -/
def inRange (elo : ℚ) (b : RankBand) : Bool :=
  decide (b.min_elo ≤ elo) &&
    (match b.max_elo with
     | some m => decide (elo ≤ m)
     | none => true)

/-- `get_rank(elo)` from `elo.py`: the first band of `RANKS` whose inclusive
range contains `elo`, paired with its emoji; `("Unranked", "")` when no band
matches. -/
def get_rank (elo : ℚ) : String × String :=
  match RANKS.find? (inRange elo) with
  | some b => (b.rank, RANK_EMOJIS b.rank)
  | none => ("Unranked", "")

/-- Position of a tier name in the ascending tier order, with the sentinel
`"Unranked"` (and any unknown name) below every real tier. -/
def rankIndex : String → Nat
  | "Iron" => 1
  | "Bronze" => 2
  | "Silver" => 3
  | "Gold" => 4
  | "Platinum" => 5
  | "Diamond" => 6
  | "Master" => 7
  | "Grandmaster" => 8
  | _ => 0

/-! ### Claim C1 -/

/-- Claim C1: for every pair of real ratings, the two components returned by
`calculate_elo_change` sum to exactly zero, and for equal ratings the result
is exactly `(16, -16)` (with `K_FACTOR = 32`). -/
theorem calculate_elo_change_zero_sum_and_equal_case :
    ∀ a b : ℝ,
      (calculate_elo_change a b).1 + (calculate_elo_change a b).2 = 0 ∧
        calculate_elo_change a a = (16, -16) := by
  intro a b
  constructor
  · simp only [calculate_elo_change]
    ring
  · have hz : (a - a) / 400 = (0 : ℝ) := by ring
    simp only [calculate_elo_change, hz, Real.rpow_zero]
    norm_num [K_FACTOR, Prod.ext_iff]

/-! ### Evaluation lemmas for `get_rank` -/

lemma inRange_iff (q : ℚ) (b : RankBand) :
    inRange q b = true ↔ b.min_elo ≤ q ∧ ∀ m ∈ b.max_elo, q ≤ m := by
  rcases b with ⟨n, lo, hi⟩
  cases hi <;> simp [inRange]

lemma not_inRange_of_lt (q : ℚ) (n : String) (lo : ℚ) (hi : Option ℚ)
    (h : q < lo) : ¬ inRange q ⟨n, lo, hi⟩ = true := by
  rw [inRange_iff]
  rintro ⟨h1, -⟩
  exact absurd h1 (not_le.mpr h)

lemma not_inRange_of_gt (q : ℚ) (n : String) (lo hi : ℚ)
    (h : hi < q) : ¬ inRange q ⟨n, lo, some hi⟩ = true := by
  rw [inRange_iff]
  rintro ⟨-, h2⟩
  exact absurd (h2 hi rfl) (not_le.mpr h)

lemma inRange_of (q : ℚ) (n : String) (lo hi : ℚ)
    (h1 : lo ≤ q) (h2 : q ≤ hi) : inRange q ⟨n, lo, some hi⟩ = true := by
  rw [inRange_iff]
  exact ⟨h1, by simpa using h2⟩

lemma inRange_top (q : ℚ) (n : String) (lo : ℚ)
    (h1 : lo ≤ q) : inRange q ⟨n, lo, none⟩ = true := by
  rw [inRange_iff]
  exact ⟨h1, by simp⟩

/-- Value of `get_rank` on every integer rating, as an explicit case split. -/
lemma get_rank_int_eval (z : ℤ) :
    get_rank (z : ℚ) =
      if z < 0 then ("Unranked", "")
      else if z ≤ 899 then ("Iron", "")
      else if z ≤ 1199 then ("Bronze", "")
      else if z ≤ 1499 then ("Silver", "")
      else if z ≤ 1799 then ("Gold", "")
      else if z ≤ 2099 then ("Platinum", "")
      else if z ≤ 2399 then ("Diamond", "")
      else if z ≤ 2699 then ("Master", "")
      else ("Grandmaster", "") := by
  unfold get_rank RANKS
  split_ifs with h0 h1 h2 h3 h4 h5 h6 h7
  · have hzq : (z : ℚ) < 0 := by exact_mod_cast h0
    rw [List.find?_eq_none.mpr]
    intro b hb
    fin_cases hb <;>
      exact not_inRange_of_lt _ _ _ _ (lt_of_lt_of_le hzq (by norm_num))
  · rw [List.find?_cons_of_pos _
      (inRange_of _ _ _ _ (by exact_mod_cast not_lt.mp h0) (by exact_mod_cast h1))]
    rfl
  · rw [List.find?_cons_of_neg _ (not_inRange_of_gt _ _ _ _ (by exact_mod_cast (by omega : (899:ℤ) < z))),
        List.find?_cons_of_pos _
          (inRange_of _ _ _ _ (by exact_mod_cast (by omega : (900:ℤ) ≤ z)) (by exact_mod_cast h2))]
    rfl
  · rw [List.find?_cons_of_neg _ (not_inRange_of_gt _ _ _ _ (by exact_mod_cast (by omega : (899:ℤ) < z))),
        List.find?_cons_of_neg _ (not_inRange_of_gt _ _ _ _ (by exact_mod_cast (by omega : (1199:ℤ) < z))),
        List.find?_cons_of_pos _
          (inRange_of _ _ _ _ (by exact_mod_cast (by omega : (1200:ℤ) ≤ z)) (by exact_mod_cast h3))]
    rfl
  · rw [List.find?_cons_of_neg _ (not_inRange_of_gt _ _ _ _ (by exact_mod_cast (by omega : (899:ℤ) < z))),
        List.find?_cons_of_neg _ (not_inRange_of_gt _ _ _ _ (by exact_mod_cast (by omega : (1199:ℤ) < z))),
        List.find?_cons_of_neg _ (not_inRange_of_gt _ _ _ _ (by exact_mod_cast (by omega : (1499:ℤ) < z))),
        List.find?_cons_of_pos _
          (inRange_of _ _ _ _ (by exact_mod_cast (by omega : (1500:ℤ) ≤ z)) (by exact_mod_cast h4))]
    rfl
  · rw [List.find?_cons_of_neg _ (not_inRange_of_gt _ _ _ _ (by exact_mod_cast (by omega : (899:ℤ) < z))),
        List.find?_cons_of_neg _ (not_inRange_of_gt _ _ _ _ (by exact_mod_cast (by omega : (1199:ℤ) < z))),
        List.find?_cons_of_neg _ (not_inRange_of_gt _ _ _ _ (by exact_mod_cast (by omega : (1499:ℤ) < z))),
        List.find?_cons_of_neg _ (not_inRange_of_gt _ _ _ _ (by exact_mod_cast (by omega : (1799:ℤ) < z))),
        List.find?_cons_of_pos _
          (inRange_of _ _ _ _ (by exact_mod_cast (by omega : (1800:ℤ) ≤ z)) (by exact_mod_cast h5))]
    rfl
  · rw [List.find?_cons_of_neg _ (not_inRange_of_gt _ _ _ _ (by exact_mod_cast (by omega : (899:ℤ) < z))),
        List.find?_cons_of_neg _ (not_inRange_of_gt _ _ _ _ (by exact_mod_cast (by omega : (1199:ℤ) < z))),
        List.find?_cons_of_neg _ (not_inRange_of_gt _ _ _ _ (by exact_mod_cast (by omega : (1499:ℤ) < z))),
        List.find?_cons_of_neg _ (not_inRange_of_gt _ _ _ _ (by exact_mod_cast (by omega : (1799:ℤ) < z))),
        List.find?_cons_of_neg _ (not_inRange_of_gt _ _ _ _ (by exact_mod_cast (by omega : (2099:ℤ) < z))),
        List.find?_cons_of_pos _
          (inRange_of _ _ _ _ (by exact_mod_cast (by omega : (2100:ℤ) ≤ z)) (by exact_mod_cast h6))]
    rfl
  · rw [List.find?_cons_of_neg _ (not_inRange_of_gt _ _ _ _ (by exact_mod_cast (by omega : (899:ℤ) < z))),
        List.find?_cons_of_neg _ (not_inRange_of_gt _ _ _ _ (by exact_mod_cast (by omega : (1199:ℤ) < z))),
        List.find?_cons_of_neg _ (not_inRange_of_gt _ _ _ _ (by exact_mod_cast (by omega : (1499:ℤ) < z))),
        List.find?_cons_of_neg _ (not_inRange_of_gt _ _ _ _ (by exact_mod_cast (by omega : (1799:ℤ) < z))),
        List.find?_cons_of_neg _ (not_inRange_of_gt _ _ _ _ (by exact_mod_cast (by omega : (2099:ℤ) < z))),
        List.find?_cons_of_neg _ (not_inRange_of_gt _ _ _ _ (by exact_mod_cast (by omega : (2399:ℤ) < z))),
        List.find?_cons_of_pos _
          (inRange_of _ _ _ _ (by exact_mod_cast (by omega : (2400:ℤ) ≤ z)) (by exact_mod_cast h7))]
    rfl
  · rw [List.find?_cons_of_neg _ (not_inRange_of_gt _ _ _ _ (by exact_mod_cast (by omega : (899:ℤ) < z))),
        List.find?_cons_of_neg _ (not_inRange_of_gt _ _ _ _ (by exact_mod_cast (by omega : (1199:ℤ) < z))),
        List.find?_cons_of_neg _ (not_inRange_of_gt _ _ _ _ (by exact_mod_cast (by omega : (1499:ℤ) < z))),
        List.find?_cons_of_neg _ (not_inRange_of_gt _ _ _ _ (by exact_mod_cast (by omega : (1799:ℤ) < z))),
        List.find?_cons_of_neg _ (not_inRange_of_gt _ _ _ _ (by exact_mod_cast (by omega : (2099:ℤ) < z))),
        List.find?_cons_of_neg _ (not_inRange_of_gt _ _ _ _ (by exact_mod_cast (by omega : (2399:ℤ) < z))),
        List.find?_cons_of_neg _ (not_inRange_of_gt _ _ _ _ (by exact_mod_cast (by omega : (2699:ℤ) < z))),
        List.find?_cons_of_pos _
          (inRange_top _ _ _ (by exact_mod_cast (by omega : (2700:ℤ) ≤ z)))]
    rfl

/-- The tier index reached by an integer rating, written as a case split. -/
def rankIdxInt (z : ℤ) : ℕ :=
  if z < 0 then 0
  else if z ≤ 899 then 1
  else if z ≤ 1199 then 2
  else if z ≤ 1499 then 3
  else if z ≤ 1799 then 4
  else if z ≤ 2099 then 5
  else if z ≤ 2399 then 6
  else if z ≤ 2699 then 7
  else 8

lemma rankIndex_get_rank_int (z : ℤ) :
    rankIndex (get_rank (z : ℚ)).1 = rankIdxInt z := by
  rw [get_rank_int_eval]
  unfold rankIdxInt
  split_ifs <;> rfl

/-! ### Claims C2 and C3 -/

lemma get_rank_at_gap : get_rank ((1799 : ℚ) / 2) = ("Unranked", "") := by
  have hnone : RANKS.find? (inRange ((1799 : ℚ) / 2)) = none := by
    rw [List.find?_eq_none]
    intro b hb
    fin_cases hb
    · exact not_inRange_of_gt _ _ _ _ (by norm_num)
    all_goals exact not_inRange_of_lt _ _ _ _ (by norm_num)
  unfold get_rank
  rw [hnone]

lemma get_rank_at_899 : get_rank (899 : ℚ) = ("Iron", "") := by
  unfold get_rank RANKS
  rw [List.find?_cons_of_pos _ (inRange_of _ _ _ _ (by norm_num) (by norm_num))]
  rfl

lemma get_rank_at_900 : get_rank (900 : ℚ) = ("Bronze", "") := by
  unfold get_rank RANKS
  rw [List.find?_cons_of_neg _ (not_inRange_of_gt _ _ _ _ (by norm_num)),
      List.find?_cons_of_pos _ (inRange_of _ _ _ _ (by norm_num) (by norm_num))]
  rfl

/-- Counterexample to claim C2: the rating `899.5` (= `1799/2`) is
nonnegative, yet `get_rank` maps it to the sentinel `"Unranked"` — the bands
have inclusive integer endpoints, so the real interval `(899, 900)` belongs
to no band. -/
theorem get_rank_nonneg_gap_counterexample :
    (0 : ℚ) ≤ 1799 / 2 ∧ get_rank ((1799 : ℚ) / 2) = ("Unranked", "") :=
  ⟨by norm_num, get_rank_at_gap⟩

/-- Claim C2 (amended): `get_rank` is total over all integer ratings ≥ 0 —
every such rating lies in some band of `RANKS` and is mapped to that band's
name and symbol — while every negative rating is mapped to the sentinel
`("Unranked", "")`. -/
theorem get_rank_int_total_and_negative_sentinel :
    (∀ z : ℤ, 0 ≤ z →
        ∃ b ∈ RANKS, inRange (z : ℚ) b = true ∧
          get_rank (z : ℚ) = (b.rank, RANK_EMOJIS b.rank)) ∧
      (∀ q : ℚ, q < 0 → get_rank q = ("Unranked", "")) := by
  constructor
  · intro z hz
    rcases hfind : RANKS.find? (inRange (z : ℚ)) with _ | b
    · exfalso
      have hU : get_rank (z : ℚ) = ("Unranked", "") := by
        unfold get_rank
        rw [hfind]
      rw [get_rank_int_eval] at hU
      split_ifs at hU <;> first | omega | simp_all
    · exact ⟨b, List.mem_of_find?_eq_some hfind, List.find?_some hfind, by
        unfold get_rank
        rw [hfind]⟩
  · intro q hq
    have hnone : RANKS.find? (inRange q) = none := by
      rw [List.find?_eq_none]
      intro b hb
      fin_cases hb <;>
        exact not_inRange_of_lt _ _ _ _ (lt_of_lt_of_le hq (by norm_num))
    unfold get_rank
    rw [hnone]

/-- Witness for the amended claim C2 at the concrete ratings `5` and `-1`. -/
theorem get_rank_int_total_witness :
    (∃ b ∈ RANKS, inRange ((5 : ℤ) : ℚ) b = true ∧
        get_rank ((5 : ℤ) : ℚ) = (b.rank, RANK_EMOJIS b.rank)) ∧
      get_rank (-1 : ℚ) = ("Unranked", "") :=
  ⟨get_rank_int_total_and_negative_sentinel.1 5 (by decide),
   get_rank_int_total_and_negative_sentinel.2 (-1) (by norm_num)⟩

/-- Counterexample to claim C3: the ratings `899 ≤ 899.5` are mapped to
`Iron` and `"Unranked"` respectively, so increasing the (real-valued) rating
can move to a strictly lower tier. -/
theorem get_rank_monotone_counterexample :
    (899 : ℚ) ≤ 1799 / 2 ∧
      rankIndex (get_rank ((1799 : ℚ) / 2)).1 < rankIndex (get_rank (899 : ℚ)).1 := by
  rw [get_rank_at_gap, get_rank_at_899]
  exact ⟨by norm_num, by decide⟩

set_option maxHeartbeats 1600000 in
/-- Claim C3 (amended): `get_rank` is monotonic over integer ratings — for
integers `z1 ≤ z2` the tier of `z2` is never lower in the tier order than
the tier of `z1` — and the boundaries are inclusive: rating `899` maps to
Iron and rating `900` to Bronze. -/
theorem get_rank_int_monotone_and_boundaries :
    (∀ z1 z2 : ℤ, z1 ≤ z2 →
        rankIndex (get_rank (z1 : ℚ)).1 ≤ rankIndex (get_rank (z2 : ℚ)).1) ∧
      get_rank (899 : ℚ) = ("Iron", "") ∧ get_rank (900 : ℚ) = ("Bronze", "") := by
  refine ⟨?_, get_rank_at_899, get_rank_at_900⟩
  intro z1 z2 h
  rw [rankIndex_get_rank_int, rankIndex_get_rank_int]
  unfold rankIdxInt
  split_ifs <;> omega

/-- Witness for the amended claim C3 at the concrete ratings `899 ≤ 2700`. -/
theorem get_rank_int_monotone_witness :
    rankIndex (get_rank ((899 : ℤ) : ℚ)).1 ≤ rankIndex (get_rank ((2700 : ℤ) : ℚ)).1 :=
  get_rank_int_monotone_and_boundaries.1 899 2700 (by decide)

/-! ### Claim C8 -/

/-- Claim C8: when the lower-rated of two distinct players wins, the winner
delta is strictly larger in magnitude than when the higher-rated player
wins: for `b < a`, `|calculate_elo_change(b, a).1| > |calculate_elo_change(a, b).1|`. -/
theorem upset_winner_delta_larger (a b : ℝ) (h : b < a) :
    |(calculate_elo_change a b).1| < |(calculate_elo_change b a).1| := by
  have h10 : (1 : ℝ) < 10 := by norm_num
  have hx : (b - a) / 400 < (a - b) / 400 := by linarith
  have ht1 : (0 : ℝ) < (10 : ℝ) ^ ((b - a) / 400) := Real.rpow_pos_of_pos (by norm_num) _
  have ht2 : (0 : ℝ) < (10 : ℝ) ^ ((a - b) / 400) := Real.rpow_pos_of_pos (by norm_num) _
  have hlt : (10 : ℝ) ^ ((b - a) / 400) < (10 : ℝ) ^ ((a - b) / 400) :=
    (Real.rpow_lt_rpow_left_iff h10).mpr hx
  simp only [calculate_elo_change, K_FACTOR]
  set t1 := (10 : ℝ) ^ ((b - a) / 400) with ht1d
  set t2 := (10 : ℝ) ^ ((a - b) / 400) with ht2d
  have hd : 1 / (1 + t2) < 1 / (1 + t1) :=
    one_div_lt_one_div_of_lt (by linarith) (by linarith)
  have hp1 : 0 < 1 - 1 / (1 + t1) := by
    have : 1 / (1 + t1) < 1 := by
      rw [div_lt_one (by linarith)]
      linarith
    linarith
  have hp2 : 0 < 1 - 1 / (1 + t2) := by
    have : 1 / (1 + t2) < 1 := by
      rw [div_lt_one (by linarith)]
      linarith
    linarith
  rw [abs_of_pos (by linarith), abs_of_pos (by linarith)]
  linarith

/-- Witness for claim C8 at the concrete ratings `a = 1`, `b = 0`. -/
theorem upset_winner_delta_larger_witness :
    |(calculate_elo_change 1 0).1| < |(calculate_elo_change 0 1).1| :=
  upset_winner_delta_larger 1 0 (by norm_num)

/-! ### League store: schema (`src/badge_league_bot/database/db.py`) -/

/-- A row of the `players` table: `discord_id INTEGER PRIMARY KEY`,
`player_name TEXT NOT NULL`, `wins INTEGER DEFAULT 0`,
`losses INTEGER DEFAULT 0`, `elo_rating REAL DEFAULT 1000.0`. -/
structure Player where
  discord_id : Nat
  player_name : String
  wins : Nat
  losses : Nat
  elo_rating : ℝ

/-- A row of the `leagues` table: `league_id INTEGER PRIMARY KEY
AUTOINCREMENT`, `league_name TEXT NOT NULL UNIQUE` (the `created_at`
timestamp, which no handler reads, is omitted). -/
structure League where
  league_id : Nat
  league_name : String

/-- A row of the `league_players` table: primary key
`(league_id, player_id)`, both foreign keys, with `league_elo REAL DEFAULT
1000.0`, `league_wins INTEGER DEFAULT 0`, `league_losses INTEGER DEFAULT 0`
(the `joined_at` timestamp is omitted). -/
structure LeaguePlayer where
  league_id : Nat
  player_id : Nat
  league_elo : ℝ
  league_wins : Nat
  league_losses : Nat

/-- A row of the `matches` table: `match_id INTEGER PRIMARY KEY
AUTOINCREMENT`, participant/winner/league columns all foreign keys to
`players`/`leagues`, `status TEXT DEFAULT 'pending'` (the `created_at`
timestamp is omitted). -/
structure MatchRow where
  match_id : Nat
  player1_id : Nat
  player2_id : Nat
  scheduled_time : Option String
  status : String
  winner_id : Option Nat
  league_id : Option Nat

/-- The relational store: the four tables plus the AUTOINCREMENT counters
for the two tables with auto-assigned ids (SQLite assigns from 1). -/
structure DBState where
  players : List Player
  leagues : List League
  league_players : List LeaguePlayer
  «matches» : List MatchRow
  next_league_id : Nat
  next_match_id : Nat

/-- The two flavours of SQLite `IntegrityError` that
`handle_command_error` distinguishes: a UNIQUE / PRIMARY KEY failure (its
message contains "UNIQUE constraint failed") and a FOREIGN KEY failure,
enforced on every insert because `db.py` runs `PRAGMA foreign_keys = ON`. -/
inductive DbErr where
  | unique
  | fk
deriving DecidableEq

/-- The spec's domain-error taxonomy, as surfaced by the command handlers'
error messages. -/
inductive Err where
  | notRegistered
  | alreadyRegistered
  | leagueNotFound
  | duplicateName
  | alreadyMember
  | notLeagueMember
  | opponentNotRegistered
  | constraintViolation
deriving DecidableEq

/-- `SELECT ... FROM players WHERE discord_id = ?` followed by
`fetchone()`. -/
def findPlayer (ps : List Player) (id : Nat) : Option Player :=
  ps.find? (fun p => p.discord_id == id)

/-- `SELECT league_id FROM leagues WHERE league_name = ?` followed by
`fetchone()`. -/
def findLeague (ls : List League) (name : String) : Option League :=
  ls.find? (fun l => l.league_name == name)

/-- `SELECT 1 FROM league_players WHERE league_id = ? AND player_id = ?`
followed by `fetchone()`. -/
def findMember (ms : List LeaguePlayer) (lid pid : Nat) : Option LeaguePlayer :=
  ms.find? (fun m => m.league_id == lid && m.player_id == pid)

/-- `INSERT INTO players ...`: fails with a UNIQUE error when the
`discord_id` primary key is already taken (this table has no foreign
keys). -/
def insertPlayer (s : DBState) (row : Player) : Except DbErr DBState :=
  if s.players.any (fun p => p.discord_id == row.discord_id) then .error .unique
  else .ok { s with players := s.players ++ [row] }

/-- `INSERT INTO leagues (league_name) VALUES (?)`: fails with a UNIQUE
error when the name is taken; otherwise assigns the AUTOINCREMENT id (the
`cursor.lastrowid` the handler reads back). -/
def insertLeague (s : DBState) (name : String) : Except DbErr (Nat × DBState) :=
  if s.leagues.any (fun l => l.league_name == name) then .error .unique
  else
    .ok (s.next_league_id,
      { s with
        leagues := s.leagues ++ [{ league_id := s.next_league_id, league_name := name }],
        next_league_id := s.next_league_id + 1 })

/-- `INSERT INTO league_players (league_id, player_id) VALUES (?, ?)`: fails
with a UNIQUE error when the `(league_id, player_id)` primary key exists and
with a FOREIGN KEY error when either referenced row is absent; the
league-scoped rating and counters take the schema defaults. -/
noncomputable def insertLeaguePlayer (s : DBState) (lid pid : Nat) : Except DbErr DBState :=
  if s.league_players.any (fun m => m.league_id == lid && m.player_id == pid) then
    .error .unique
  else if s.leagues.any (fun l => l.league_id == lid) &&
      s.players.any (fun p => p.discord_id == pid) then
    .ok { s with league_players := s.league_players ++
      [{ league_id := lid, player_id := pid, league_elo := 1000,
         league_wins := 0, league_losses := 0 }] }
  else .error .fk

/-- `INSERT INTO matches ...`: fails with a FOREIGN KEY error when a
non-null participant, winner or league column references an absent row;
otherwise appends the row with the next AUTOINCREMENT id. -/
def insertMatch (s : DBState) (p1 p2 : Nat) (time : Option String)
    (status : String) (winner : Option Nat) (lid : Option Nat) :
    Except DbErr DBState :=
  if s.players.any (fun p => p.discord_id == p1) &&
      s.players.any (fun p => p.discord_id == p2) &&
      (match winner with
       | none => true
       | some w => s.players.any (fun p => p.discord_id == w)) &&
      (match lid with
       | none => true
       | some l => s.leagues.any (fun lg => lg.league_id == l)) then
    .ok { s with
      «matches» := s.«matches» ++
        [{ match_id := s.next_match_id, player1_id := p1, player2_id := p2,
           scheduled_time := time, status := status, winner_id := winner,
           league_id := lid }],
      next_match_id := s.next_match_id + 1 }
  else .error .fk

/-! ### Command handlers (`src/badge_league_bot/commands/*.py`) -/

/-- The `register` handler (`player_commands.py`): a bare INSERT with the
schema defaults; a duplicate primary key surfaces as `AlreadyRegistered`
("This record already exists."), uncommitted, leaving the store
unchanged. -/
noncomputable def register (s : DBState) (uid : Nat) (player_name : String) :
    Except Err Unit × DBState :=
  match insertPlayer s
      { discord_id := uid, player_name := player_name, wins := 0, losses := 0,
        elo_rating := 1000 } with
  | .error _ => (.error .alreadyRegistered, s)
  | .ok s' => (.ok (), s')

/-- The `create_league` handler (`league_commands.py`): checks the creator
is registered, inserts the league (a duplicate name surfaces as
`DuplicateName`), then auto-enrols the creator; the single commit comes
last, so any error leaves the store unchanged. -/
noncomputable def create_league (s : DBState) (uid : Nat) (league_name : String) :
    Except Err Unit × DBState :=
  if (findPlayer s.players uid).isNone then (.error .notRegistered, s)
  else
    match insertLeague s league_name with
    | .error _ => (.error .duplicateName, s)
    | .ok (league_id, s1) =>
      match insertLeaguePlayer s1 league_id uid with
      | .error .unique => (.error .alreadyMember, s)
      | .error .fk => (.error .constraintViolation, s)
      | .ok s2 => (.ok (), s2)

/-- The `join_league` handler (`league_commands.py`): checks the league
exists and the player is registered, then runs the membership INSERT; a
duplicate membership key surfaces as `AlreadyMember` ("This record already
exists."). -/
noncomputable def join_league (s : DBState) (uid : Nat) (league_name : String) :
    Except Err Unit × DBState :=
  match findLeague s.leagues league_name with
  | none => (.error .leagueNotFound, s)
  | some league =>
    if (findPlayer s.players uid).isNone then (.error .notRegistered, s)
    else
      match insertLeaguePlayer s league.league_id uid with
      | .error .unique => (.error .alreadyMember, s)
      | .error .fk => (.error .constraintViolation, s)
      | .ok s' => (.ok (), s')

/-- The `schedule` handler (`match_commands.py`): checks only the opponent's
registration, then inserts a `pending` match whose player-one id is the
(unchecked) scheduling user; a constraint failure on the INSERT is caught by
the generic error handler and nothing is committed. -/
def schedule (s : DBState) (uid oid : Nat) (time : String) :
    Except Err Unit × DBState :=
  match findPlayer s.players oid with
  | none => (.error .opponentNotRegistered, s)
  | some opponent =>
    match insertMatch s uid opponent.discord_id (some time) "pending" none none with
    | .error _ => (.error .constraintViolation, s)
    | .ok s' => (.ok (), s')

/-- The `result` argument of `report`: `Literal["win", "loss"]`. -/
inductive Outcome where
  | win
  | loss
deriving DecidableEq

/-- The winner/loser selection of `report`'s `if result == "win": ... else:
...` block: the first component when the reporter won, the second when they
lost. -/
def pick {α : Type} (a b : α) : Outcome → α
  | .win => a
  | .loss => b

/-- `UPDATE players SET ... WHERE discord_id = ?`. -/
def updatePlayers (ps : List Player) (id : Nat) (f : Player → Player) :
    List Player :=
  ps.map (fun p => if p.discord_id == id then f p else p)

/-- `UPDATE league_players SET ... WHERE league_id = ? AND player_id = ?`. -/
def updateMembers (ms : List LeaguePlayer) (lid pid : Nat)
    (f : LeaguePlayer → LeaguePlayer) : List LeaguePlayer :=
  ms.map (fun m => if m.league_id == lid && m.player_id == pid then f m else m)

/-- Python truthiness of the optional `league_name` argument: `None` and the
empty string are falsy. -/
def truthyName : Option String → Bool
  | none => false
  | some s => s != ""

/-- Python truthiness of the optional `league_id` value: `None` and `0` are
falsy. -/
def truthyId : Option Nat → Bool
  | none => false
  | some n => n != 0

/-- The "Get league info if specified" block of `report`: when a truthy
league name was given, resolve it (else `LeagueNotFound`) and check both
participants' memberships (else `NotLeagueMember`); otherwise the league id
stays `None`. -/
def resolveLeague (s : DBState) (uid oid : Nat) (league_name : Option String) :
    Except Err (Option Nat) :=
  if truthyName league_name then
    match findLeague s.leagues (league_name.getD "") with
    | none => .error .leagueNotFound
    | some league =>
      if (findMember s.league_players league.league_id uid).isNone then
        .error .notLeagueMember
      else if (findMember s.league_players league.league_id oid).isNone then
        .error .notLeagueMember
      else .ok (some league.league_id)
  else .ok none

/-- The winner's global SET clause: `wins = wins + 1, elo_rating =
elo_rating + winner_change`. -/
noncomputable def winUpd (changes : ℝ × ℝ) (p : Player) : Player :=
  { p with wins := p.wins + 1, elo_rating := p.elo_rating + changes.1 }

/-- The loser's global SET clause: `losses = losses + 1, elo_rating =
elo_rating + loser_change`. -/
noncomputable def lossUpd (changes : ℝ × ℝ) (p : Player) : Player :=
  { p with losses := p.losses + 1, elo_rating := p.elo_rating + changes.2 }

/-- The winner's league-scoped SET clause: `league_wins = league_wins + 1,
league_elo = league_elo + winner_change`. -/
noncomputable def leagueWinUpd (changes : ℝ × ℝ) (m : LeaguePlayer) : LeaguePlayer :=
  { m with league_wins := m.league_wins + 1, league_elo := m.league_elo + changes.1 }

/-- The loser's league-scoped SET clause: `league_losses = league_losses + 1,
league_elo = league_elo + loser_change`. -/
noncomputable def leagueLossUpd (changes : ℝ × ℝ) (m : LeaguePlayer) : LeaguePlayer :=
  { m with league_losses := m.league_losses + 1, league_elo := m.league_elo + changes.2 }

/-- The "Update global stats" block of `report`: the winner's UPDATE then
the loser's UPDATE on the `players` table. -/
noncomputable def globalUpdates (s : DBState) (winner_id loser_id : Nat)
    (changes : ℝ × ℝ) : DBState :=
  let ps := updatePlayers (updatePlayers s.players winner_id (winUpd changes))
    loser_id (lossUpd changes)
  { s with players := ps }

/-- The "Update league stats if applicable" block of `report`: the winner's
UPDATE then the loser's UPDATE on the `league_players` rows of the resolved
league. -/
noncomputable def leagueUpdates (s : DBState) (lid winner_id loser_id : Nat)
    (changes : ℝ × ℝ) : DBState :=
  let ms := updateMembers (updateMembers s.league_players lid winner_id (leagueWinUpd changes))
    lid loser_id (leagueLossUpd changes)
  { s with league_players := ms }

/-- The data `report` reads back for its reply message. -/
structure ReportInfo where
  winner_name : String
  loser_name : String
  winner_change : ℝ
  loser_change : ℝ

/-- The `report` handler (`match_commands.py`): registration checks for both
participants, the optional league resolution, winner/loser selection from
the `result` argument, ELO deltas from `calculate_elo_change`, the two
global `players` UPDATEs, the two league-scoped UPDATEs when the resolved
league id is truthy, and the INSERT of a fresh `completed` match row; the
single commit comes last, so any error leaves the store unchanged. -/
noncomputable def report (s : DBState) (uid oid : Nat) (result : Outcome)
    (league_name : Option String) : Except Err ReportInfo × DBState :=
  match findPlayer s.players uid with
  | none => (.error .notRegistered, s)
  | some player1 =>
    match findPlayer s.players oid with
    | none => (.error .notRegistered, s)
    | some player2 =>
      match resolveLeague s uid oid league_name with
      | .error e => (.error e, s)
      | .ok league_id =>
        let winner_id := pick uid oid result
        let loser_id := pick oid uid result
        let winner := pick player1 player2 result
        let loser := pick player2 player1 result
        let changes := calculate_elo_change winner.elo_rating loser.elo_rating
        let s2 := globalUpdates s winner_id loser_id changes
        let s3 :=
          if truthyId league_id then
            leagueUpdates s2 (league_id.getD 0) winner_id loser_id changes
          else s2
        match insertMatch s3 uid oid none "completed" (some winner_id) league_id with
        | .error _ => (.error .constraintViolation, s)
        | .ok s4 =>
          (.ok { winner_name := winner.player_name, loser_name := loser.player_name,
                 winner_change := changes.1, loser_change := changes.2 }, s4)

/-! ### Store lemmas -/

lemma calculate_elo_change_snd_eq_neg_fst (a b : ℝ) :
    (calculate_elo_change a b).2 = -(calculate_elo_change a b).1 := by
  simp only [calculate_elo_change]
  ring

lemma findPlayer_id (ps : List Player) (id : Nat) (p : Player)
    (h : findPlayer ps id = some p) : p.discord_id = id := by
  unfold findPlayer at h
  have := List.find?_some h
  simpa using this

lemma any_of_findPlayer (ps : List Player) (id : Nat) (p : Player)
    (h : findPlayer ps id = some p) :
    ps.any (fun q => q.discord_id == id) = true := by
  unfold findPlayer at h
  have hpa := List.find?_some h
  exact List.any_eq_true.mpr ⟨p, List.mem_of_find?_eq_some h, hpa⟩

lemma any_false_of_findPlayer_none (ps : List Player) (id : Nat)
    (h : findPlayer ps id = none) :
    ps.any (fun q => q.discord_id == id) = false := by
  unfold findPlayer at h
  rw [List.any_eq_false]
  intro q hq
  exact List.find?_eq_none.mp h q hq

lemma any_of_mem_league (ls : List League) (lg : League) (h : lg ∈ ls) :
    ls.any (fun l => l.league_id == lg.league_id) = true :=
  List.any_eq_true.mpr ⟨lg, h, by simp⟩

lemma findPlayer_updatePlayers_eq (ps : List Player) (id : Nat)
    (f : Player → Player) (hf : ∀ p, (f p).discord_id = p.discord_id) :
    findPlayer (updatePlayers ps id f) id = (findPlayer ps id).map f := by
  induction ps with
  | nil => rfl
  | cons p ps ih =>
    simp only [updatePlayers, List.map_cons] at ih ⊢
    by_cases hp : (p.discord_id == id) = true
    · have hgp : ((f p).discord_id == id) = true := by rw [hf p]; exact hp
      rw [if_pos hp]
      unfold findPlayer
      rw [List.find?_cons, List.find?_cons]
      simp only [hgp, hp]
      rfl
    · have hp' : (p.discord_id == id) = false := by simpa using hp
      rw [if_neg hp]
      unfold findPlayer at ih ⊢
      rw [List.find?_cons, List.find?_cons]
      simp only [hp']
      exact ih

lemma findPlayer_updatePlayers_ne (ps : List Player) (id x : Nat)
    (f : Player → Player) (hf : ∀ p, (f p).discord_id = p.discord_id)
    (hne : x ≠ id) :
    findPlayer (updatePlayers ps id f) x = findPlayer ps x := by
  induction ps with
  | nil => rfl
  | cons p ps ih =>
    simp only [updatePlayers, List.map_cons] at ih ⊢
    by_cases hp : (p.discord_id == id) = true
    · have hpe : p.discord_id = id := by simpa using hp
      have hx : (p.discord_id == x) = false := by
        have hxx : ¬ id = x := fun h => hne h.symm
        simp [hpe, hxx]
      have hgx : ((f p).discord_id == x) = false := by rw [hf p]; exact hx
      rw [if_pos hp]
      unfold findPlayer at ih ⊢
      rw [List.find?_cons, List.find?_cons]
      simp only [hx, hgx]
      exact ih
    · rw [if_neg hp]
      unfold findPlayer at ih ⊢
      rw [List.find?_cons, List.find?_cons]
      by_cases hx : (p.discord_id == x) = true
      · simp only [hx]
      · have hx' : (p.discord_id == x) = false := by simpa using hx
        simp only [hx']
        exact ih

lemma any_updatePlayers (ps : List Player) (id x : Nat)
    (f : Player → Player) (hf : ∀ p, (f p).discord_id = p.discord_id) :
    (updatePlayers ps id f).any (fun q => q.discord_id == x) =
      ps.any (fun q => q.discord_id == x) := by
  induction ps with
  | nil => rfl
  | cons p ps ih =>
    simp only [updatePlayers, List.map_cons, List.any_cons] at ih ⊢
    by_cases hp : (p.discord_id == id) = true
    · rw [if_pos hp]
      simp only [ih, hf p]
    · rw [if_neg hp]
      simp only [ih]

lemma findMember_updateMembers_eq (ms : List LeaguePlayer) (lid pid : Nat)
    (f : LeaguePlayer → LeaguePlayer)
    (hf : ∀ m, (f m).league_id = m.league_id ∧ (f m).player_id = m.player_id) :
    findMember (updateMembers ms lid pid f) lid pid = (findMember ms lid pid).map f := by
  induction ms with
  | nil => rfl
  | cons m ms ih =>
    simp only [updateMembers, List.map_cons] at ih ⊢
    by_cases hm : (m.league_id == lid && m.player_id == pid) = true
    · have hgm : ((f m).league_id == lid && (f m).player_id == pid) = true := by
        rw [(hf m).1, (hf m).2]
        exact hm
      rw [if_pos hm]
      unfold findMember
      rw [List.find?_cons, List.find?_cons]
      simp only [hgm, hm]
      rfl
    · have hm' : (m.league_id == lid && m.player_id == pid) = false := by simpa using hm
      rw [if_neg hm]
      unfold findMember at ih ⊢
      rw [List.find?_cons, List.find?_cons]
      simp only [hm']
      exact ih

lemma findMember_updateMembers_ne (ms : List LeaguePlayer) (lid pid x y : Nat)
    (f : LeaguePlayer → LeaguePlayer)
    (hf : ∀ m, (f m).league_id = m.league_id ∧ (f m).player_id = m.player_id)
    (hne : ¬ (x = lid ∧ y = pid)) :
    findMember (updateMembers ms lid pid f) x y = findMember ms x y := by
  induction ms with
  | nil => rfl
  | cons m ms ih =>
    simp only [updateMembers, List.map_cons] at ih ⊢
    by_cases hm : (m.league_id == lid && m.player_id == pid) = true
    · have hme : m.league_id = lid ∧ m.player_id = pid := by simpa using hm
      have hx : (m.league_id == x && m.player_id == y) = false := by
        rw [Bool.eq_false_iff]
        intro hcon
        rcases (Bool.and_eq_true _ _).mp hcon with ⟨h1, h2⟩
        refine hne ⟨?_, ?_⟩
        · rw [← hme.1]
          exact (beq_iff_eq.mp h1).symm
        · rw [← hme.2]
          exact (beq_iff_eq.mp h2).symm
      have hgx : ((f m).league_id == x && (f m).player_id == y) = false := by
        rw [(hf m).1, (hf m).2]
        exact hx
      rw [if_pos hm]
      unfold findMember at ih ⊢
      rw [List.find?_cons, List.find?_cons]
      simp only [hx, hgx]
      exact ih
    · rw [if_neg hm]
      unfold findMember at ih ⊢
      rw [List.find?_cons, List.find?_cons]
      by_cases hx : (m.league_id == x && m.player_id == y) = true
      · simp only [hx]
      · have hx' : (m.league_id == x && m.player_id == y) = false := by simpa using hx
        simp only [hx']
        exact ih

/-! ### Claim C7 -/

/-- Claim C7: a second `register` for a user id that already has a Player
row fails with `AlreadyRegistered` and leaves the store — in particular the
existing row — completely unchanged. -/
theorem register_duplicate_fails_unchanged (s : DBState) (uid : Nat)
    (nm : String) (p : Player) (hp : p ∈ s.players) (hid : p.discord_id = uid) :
    register s uid nm = (.error .alreadyRegistered, s) := by
  have hany : s.players.any (fun q => q.discord_id == uid) = true :=
    List.any_eq_true.mpr ⟨p, hp, by simp [hid]⟩
  unfold register insertPlayer
  rw [if_pos hany]

/-! ### Claim C6 -/

/-- Claim C6: when either participant of `report` has no Player row, the
call fails with `NotRegistered` and the store — all four tables — is exactly
as before. -/
theorem report_unregistered_fails_unchanged (s : DBState) (uid oid : Nat)
    (res : Outcome) (league_name : Option String)
    (h : findPlayer s.players uid = none ∨ findPlayer s.players oid = none) :
    report s uid oid res league_name = (.error .notRegistered, s) := by
  unfold report
  rcases h with h1 | h1
  · rw [h1]
  · rcases hf : findPlayer s.players uid with _ | p1
    · rfl
    · rw [h1]

/-! ### Lemmas about the insert primitives -/

lemma insertPlayer_ok_matches (s : DBState) (row : Player) (s' : DBState)
    (h : insertPlayer s row = .ok s') : s'.«matches» = s.«matches» := by
  unfold insertPlayer at h
  split at h
  · exact absurd h (by simp)
  · cases h
    rfl

lemma insertLeague_ok_matches (s : DBState) (nm : String) (lid : Nat) (s' : DBState)
    (h : insertLeague s nm = .ok (lid, s')) : s'.«matches» = s.«matches» := by
  unfold insertLeague at h
  split at h
  · exact absurd h (by simp)
  · cases h
    rfl

lemma insertLeaguePlayer_ok_matches (s : DBState) (lid pid : Nat) (s' : DBState)
    (h : insertLeaguePlayer s lid pid = .ok s') : s'.«matches» = s.«matches» := by
  unfold insertLeaguePlayer at h
  split at h
  · exact absurd h (by simp)
  · split at h
    · cases h
      rfl
    · exact absurd h (by simp)

lemma insertMatch_ok_eq (s : DBState) (p1 p2 : Nat) (time : Option String)
    (st : String) (w : Option Nat) (lid : Option Nat) (s' : DBState)
    (h : insertMatch s p1 p2 time st w lid = .ok s') :
    s' = { s with
      «matches» := s.«matches» ++
        [{ match_id := s.next_match_id, player1_id := p1, player2_id := p2,
           scheduled_time := time, status := st, winner_id := w, league_id := lid }],
      next_match_id := s.next_match_id + 1 } := by
  unfold insertMatch at h
  split at h
  · cases h
    rfl
  · exact absurd h (by simp)

lemma insertMatch_eq_ok (s : DBState) (p1 p2 : Nat) (time : Option String)
    (st : String) (w : Option Nat) (lid : Option Nat)
    (h1 : s.players.any (fun p => p.discord_id == p1) = true)
    (h2 : s.players.any (fun p => p.discord_id == p2) = true)
    (h3 : (match w with
           | none => true
           | some w => s.players.any (fun p => p.discord_id == w)) = true)
    (h4 : (match lid with
           | none => true
           | some l => s.leagues.any (fun lg => lg.league_id == l)) = true) :
    insertMatch s p1 p2 time st w lid = .ok { s with
      «matches» := s.«matches» ++
        [{ match_id := s.next_match_id, player1_id := p1, player2_id := p2,
           scheduled_time := time, status := st, winner_id := w, league_id := lid }],
      next_match_id := s.next_match_id + 1 } := by
  unfold insertMatch
  rw [h1, h2, h3, h4]
  rfl

/-! ### Claim C5 -/

/-- Claim C5: `create_league` fails with `NotRegistered` (store unchanged)
when the creator has no Player row, fails with `DuplicateName` (store
unchanged) when a League with the name exists, and otherwise inserts the
League row and the creator's LeagueMembership row together: the new state
differs from the old exactly by those two rows (and the advanced
AUTOINCREMENT counter), so both rows appear or neither does. -/
theorem create_league_checks_and_atomic (s : DBState) (uid : Nat) (nm : String)
    (hfresh : ∀ m ∈ s.league_players, m.league_id ≠ s.next_league_id) :
    (findPlayer s.players uid = none →
       create_league s uid nm = (.error .notRegistered, s)) ∧
    (∀ p, findPlayer s.players uid = some p →
       (∃ l ∈ s.leagues, l.league_name = nm) →
       create_league s uid nm = (.error .duplicateName, s)) ∧
    (∀ p, findPlayer s.players uid = some p →
       (∀ l ∈ s.leagues, l.league_name ≠ nm) →
       create_league s uid nm = (.ok (), { s with
         leagues := s.leagues ++ [{ league_id := s.next_league_id, league_name := nm }],
         league_players := s.league_players ++
           [{ league_id := s.next_league_id, player_id := uid, league_elo := 1000,
              league_wins := 0, league_losses := 0 }],
         next_league_id := s.next_league_id + 1 })) := by
  refine ⟨?_, ?_, ?_⟩
  · intro h
    unfold create_league
    rw [h]
    rfl
  · intro p hp hdup
    rcases hdup with ⟨l, hl, hln⟩
    have hany : s.leagues.any (fun l => l.league_name == nm) = true :=
      List.any_eq_true.mpr ⟨l, hl, by simp [hln]⟩
    unfold create_league insertLeague
    rw [hp, hany]
    rfl
  · intro p hp hfree
    have hanyL : s.leagues.any (fun l => l.league_name == nm) = false := by
      rw [List.any_eq_false]
      intro l hl
      simpa using hfree l hl
    have hfreshB : s.league_players.any
        (fun m => m.league_id == s.next_league_id && m.player_id == uid) = false := by
      rw [List.any_eq_false]
      intro m hm
      simp only [Bool.and_eq_true, beq_iff_eq, not_and]
      intro h1
      exact absurd h1 (hfresh m hm)
    have hfk : ((s.leagues ++ [{ league_id := s.next_league_id, league_name := nm
          : League }]).any (fun l => l.league_id == s.next_league_id) &&
        s.players.any (fun p => p.discord_id == uid)) = true := by
      rw [List.any_append, any_of_findPlayer s.players uid p hp]
      simp
    unfold create_league insertLeague insertLeaguePlayer
    rw [hp, hanyL]
    simp only [Option.isNone_some, Bool.false_eq_true, if_false, hfreshB, hfk, if_true]

/-! ### Claim C10 -/

/-- Claim C10 (amended): `schedule` itself validates only the opponent — it
fails with `OpponentNotRegistered` exactly when the opponent has no Player
row, and never checks the scheduling user — but the match INSERT is subject
to the store's foreign-key enforcement (`PRAGMA foreign_keys = ON`), so when
the scheduling user has no Player row the insert is rejected
(`ConstraintViolation`, store unchanged); a pending Match row is inserted
exactly when both ids have Player rows, and then its player-one id is the
scheduling user. -/
theorem schedule_opponent_check_and_fk (s : DBState) (uid oid : Nat) (t : String) :
    (findPlayer s.players oid = none →
       schedule s uid oid t = (.error .opponentNotRegistered, s)) ∧
    (∀ p2, findPlayer s.players oid = some p2 → findPlayer s.players uid = none →
       schedule s uid oid t = (.error .constraintViolation, s)) ∧
    (∀ p1 p2, findPlayer s.players uid = some p1 → findPlayer s.players oid = some p2 →
       schedule s uid oid t = (.ok (), { s with
         «matches» := s.«matches» ++
           [{ match_id := s.next_match_id, player1_id := uid, player2_id := oid,
              scheduled_time := some t, status := "pending", winner_id := none,
              league_id := none }],
         next_match_id := s.next_match_id + 1 })) := by
  refine ⟨?_, ?_, ?_⟩
  · intro h
    unfold schedule
    rw [h]
  · intro p2 hp2 h1
    unfold schedule insertMatch
    rw [hp2, any_false_of_findPlayer_none s.players uid h1]
    rfl
  · intro p1 p2 hp1 hp2
    have h2 : p2.discord_id = oid := findPlayer_id s.players oid p2 hp2
    unfold schedule
    simp only [hp2]
    rw [h2, insertMatch_eq_ok s uid oid (some t) "pending" none none
        (any_of_findPlayer s.players uid p1 hp1)
        (any_of_findPlayer s.players oid p2 hp2) rfl rfl]

/-! ### Claim C9 -/

/-- Claim C9: no modeled operation mutates an existing Match row — every
operation leaves the existing `matches` rows in place, `schedule` only ever
appends a row with status `pending`, and `report` only ever appends a fresh
row with status `completed` (it never transitions a pending row). -/
theorem match_rows_append_only (s : DBState) (uid oid : Nat) (nm t : String)
    (res : Outcome) (ln : Option String) :
    ((register s uid nm).2.«matches» = s.«matches») ∧
    ((create_league s uid nm).2.«matches» = s.«matches») ∧
    ((join_league s uid nm).2.«matches» = s.«matches») ∧
    (∃ rows, (schedule s uid oid t).2.«matches» = s.«matches» ++ rows ∧
       ∀ r ∈ rows, r.status = "pending") ∧
    (∃ rows, (report s uid oid res ln).2.«matches» = s.«matches» ++ rows ∧
       ∀ r ∈ rows, r.status = "completed") := by
  refine ⟨?_, ?_, ?_, ?_, ?_⟩
  · unfold register
    split
    · rfl
    · rename_i s' h
      exact insertPlayer_ok_matches s _ s' h
  · unfold create_league
    split
    · rfl
    · cases hL : insertLeague s nm with
      | error e => rfl
      | ok pr =>
        rcases pr with ⟨lid, s1⟩
        dsimp only
        cases hM : insertLeaguePlayer s1 lid uid with
        | error e => cases e <;> rfl
        | ok s2 =>
          dsimp only
          rw [insertLeaguePlayer_ok_matches s1 lid uid s2 hM,
            insertLeague_ok_matches s nm lid s1 hL]
  · unfold join_league
    cases hL : findLeague s.leagues nm with
    | none => rfl
    | some lg =>
      dsimp only
      split
      · rfl
      · cases hM : insertLeaguePlayer s lg.league_id uid with
        | error e => cases e <;> rfl
        | ok s' =>
          dsimp only
          exact insertLeaguePlayer_ok_matches s lg.league_id uid s' hM
  · unfold schedule
    cases ho : findPlayer s.players oid with
    | none => exact ⟨[], by simp⟩
    | some op =>
      dsimp only
      cases hM : insertMatch s uid op.discord_id (some t) "pending" none none with
      | error e => exact ⟨[], by simp⟩
      | ok s' =>
        dsimp only
        refine ⟨[⟨s.next_match_id, uid, op.discord_id, some t, "pending", none, none⟩], ?_, ?_⟩
        · rw [show s' = _ from insertMatch_ok_eq s uid op.discord_id (some t)
            "pending" none none s' hM]
        · intro r hr
          rw [List.mem_singleton] at hr
          rw [hr]
  · unfold report
    cases hu : findPlayer s.players uid with
    | none => exact ⟨[], by simp⟩
    | some p1 =>
      dsimp only
      cases ho : findPlayer s.players oid with
      | none => exact ⟨[], by simp⟩
      | some p2 =>
        dsimp only
        cases hR : resolveLeague s uid oid ln with
        | error e => exact ⟨[], by simp⟩
        | ok league_id =>
          dsimp only
          split
          · exact ⟨[], by simp⟩
          · rename_i s4 hM
            refine ⟨[⟨s.next_match_id, uid, oid, none, "completed", some (pick uid oid res), league_id⟩], ?_, ?_⟩
            · rw [show s4 = _ from insertMatch_ok_eq _ uid oid none "completed"
                (some (pick uid oid res)) league_id s4 hM]
              split <;> rfl
            · intro r hr
              rw [List.mem_singleton] at hr
              rw [hr]

/-! ### Lemmas about the update phases of `report` -/

lemma globalUpdates_league_players (s : DBState) (wid lid_ : Nat) (chg : ℝ × ℝ) :
    (globalUpdates s wid lid_ chg).league_players = s.league_players := rfl

lemma globalUpdates_leagues (s : DBState) (wid lid_ : Nat) (chg : ℝ × ℝ) :
    (globalUpdates s wid lid_ chg).leagues = s.leagues := rfl

lemma leagueUpdates_players (s : DBState) (lgid wid lid_ : Nat) (chg : ℝ × ℝ) :
    (leagueUpdates s lgid wid lid_ chg).players = s.players := rfl

lemma globalUpdates_any (s : DBState) (wid lid_ x : Nat) (chg : ℝ × ℝ) :
    (globalUpdates s wid lid_ chg).players.any (fun q => q.discord_id == x) =
      s.players.any (fun q => q.discord_id == x) := by
  unfold globalUpdates
  dsimp only
  rw [any_updatePlayers _ _ _ (lossUpd chg) (fun p => rfl),
    any_updatePlayers _ _ _ (winUpd chg) (fun p => rfl)]

lemma globalUpdates_findPlayer (s : DBState) (wid lid_ : Nat) (chg : ℝ × ℝ)
    (w l : Player) (hne : wid ≠ lid_)
    (hw : findPlayer s.players wid = some w)
    (hl : findPlayer s.players lid_ = some l) :
    findPlayer (globalUpdates s wid lid_ chg).players wid =
      some { w with wins := w.wins + 1, elo_rating := w.elo_rating + chg.1 } ∧
    findPlayer (globalUpdates s wid lid_ chg).players lid_ =
      some { l with losses := l.losses + 1, elo_rating := l.elo_rating + chg.2 } := by
  unfold globalUpdates
  dsimp only
  constructor
  · rw [findPlayer_updatePlayers_ne _ _ _ (lossUpd chg) (fun p => rfl) hne,
      findPlayer_updatePlayers_eq _ _ (winUpd chg) (fun p => rfl), hw]
    rfl
  · rw [findPlayer_updatePlayers_eq _ _ (lossUpd chg) (fun p => rfl),
      findPlayer_updatePlayers_ne _ _ _ (winUpd chg) (fun p => rfl) (fun h => hne h.symm),
      hl]
    rfl

lemma leagueUpdates_findMember (s : DBState) (lgid wid lid_ : Nat) (chg : ℝ × ℝ)
    (mw ml : LeaguePlayer) (hne : wid ≠ lid_)
    (hmw : findMember s.league_players lgid wid = some mw)
    (hml : findMember s.league_players lgid lid_ = some ml) :
    findMember (leagueUpdates s lgid wid lid_ chg).league_players lgid wid =
      some { mw with league_wins := mw.league_wins + 1,
                     league_elo := mw.league_elo + chg.1 } ∧
    findMember (leagueUpdates s lgid wid lid_ chg).league_players lgid lid_ =
      some { ml with league_losses := ml.league_losses + 1,
                     league_elo := ml.league_elo + chg.2 } := by
  unfold leagueUpdates
  dsimp only
  constructor
  · rw [findMember_updateMembers_ne _ _ _ _ _ (leagueLossUpd chg)
        (fun m => ⟨rfl, rfl⟩) (fun h => hne h.2),
      findMember_updateMembers_eq _ _ _ (leagueWinUpd chg) (fun m => ⟨rfl, rfl⟩), hmw]
    rfl
  · rw [findMember_updateMembers_eq _ _ _ (leagueLossUpd chg) (fun m => ⟨rfl, rfl⟩),
      findMember_updateMembers_ne _ _ _ _ _ (leagueWinUpd chg)
        (fun m => ⟨rfl, rfl⟩) (fun h => hne h.2.symm),
      hml]
    rfl

/-! ### Claim C4 -/

lemma plus_snd_eq_sub_fst (a b x : ℝ) :
    x + (calculate_elo_change a b).2 = x - (calculate_elo_change a b).1 := by
  rw [calculate_elo_change_snd_eq_neg_fst]
  ring

/-- The winner's delta `d` of a report: the first component returned by the
rating engine on the two current ratings. -/
noncomputable def winnerDelta (p1 p2 : Player) (res : Outcome) : ℝ :=
  (calculate_elo_change (pick p1 p2 res).elo_rating (pick p2 p1 res).elo_rating).1

/-- A Player row after winning: `wins + 1` and rating moved up by `d`. -/
noncomputable def winnerAfter (w : Player) (d : ℝ) : Player :=
  ⟨w.discord_id, w.player_name, w.wins + 1, w.losses, w.elo_rating + d⟩

/-- A Player row after losing: `losses + 1` and rating moved down by `d`. -/
noncomputable def loserAfter (l : Player) (d : ℝ) : Player :=
  ⟨l.discord_id, l.player_name, l.wins, l.losses + 1, l.elo_rating - d⟩

/-- A membership row after winning: `league_wins + 1` and league rating
moved up by `d`. -/
noncomputable def memberWinnerAfter (m : LeaguePlayer) (d : ℝ) : LeaguePlayer :=
  ⟨m.league_id, m.player_id, m.league_elo + d, m.league_wins + 1, m.league_losses⟩

/-- A membership row after losing: `league_losses + 1` and league rating
moved down by `d`. -/
noncomputable def memberLoserAfter (m : LeaguePlayer) (d : ℝ) : LeaguePlayer :=
  ⟨m.league_id, m.player_id, m.league_elo - d, m.league_wins, m.league_losses + 1⟩

set_option maxHeartbeats 1600000 in
/-- Claim C4: a successful league-scoped `report` applies the winner's delta
`d` and the loser's delta `-d` identically to the global Player rows and to
the league-scoped membership rows, and also increments the global win/loss
counters of both participants; a successful report without a league leaves
`league_players` (and `leagues`) untouched and updates only the global rows
(plus the appended match record). -/
theorem report_updates_global_and_league
    (s : DBState) (uid oid : Nat) (res : Outcome) (nm : String)
    (p1 p2 : Player) (hne : uid ≠ oid)
    (hp1 : findPlayer s.players uid = some p1)
    (hp2 : findPlayer s.players oid = some p2) :
    (∀ lg m1 m2, nm ≠ "" → findLeague s.leagues nm = some lg →
        lg.league_id ≠ 0 →
        findMember s.league_players lg.league_id uid = some m1 →
        findMember s.league_players lg.league_id oid = some m2 →
        (∃ info, (report s uid oid res (some nm)).1 = .ok info) ∧
        findPlayer (report s uid oid res (some nm)).2.players (pick uid oid res) =
          some (winnerAfter (pick p1 p2 res) (winnerDelta p1 p2 res)) ∧
        findPlayer (report s uid oid res (some nm)).2.players (pick oid uid res) =
          some (loserAfter (pick p2 p1 res) (winnerDelta p1 p2 res)) ∧
        findMember (report s uid oid res (some nm)).2.league_players lg.league_id
            (pick uid oid res) =
          some (memberWinnerAfter (pick m1 m2 res) (winnerDelta p1 p2 res)) ∧
        findMember (report s uid oid res (some nm)).2.league_players lg.league_id
            (pick oid uid res) =
          some (memberLoserAfter (pick m2 m1 res) (winnerDelta p1 p2 res))) ∧
    ((∃ info, (report s uid oid res none).1 = .ok info) ∧
      (report s uid oid res none).2.league_players = s.league_players ∧
      (report s uid oid res none).2.leagues = s.leagues ∧
      findPlayer (report s uid oid res none).2.players (pick uid oid res) =
        some (winnerAfter (pick p1 p2 res) (winnerDelta p1 p2 res)) ∧
      findPlayer (report s uid oid res none).2.players (pick oid uid res) =
        some (loserAfter (pick p2 p1 res) (winnerDelta p1 p2 res))) := by
  have hw : findPlayer s.players (pick uid oid res) = some (pick p1 p2 res) := by
    cases res
    · exact hp1
    · exact hp2
  have hl : findPlayer s.players (pick oid uid res) = some (pick p2 p1 res) := by
    cases res
    · exact hp2
    · exact hp1
  have hnid : pick uid oid res ≠ pick oid uid res := by
    cases res
    · exact hne
    · exact fun h => hne h.symm
  constructor
  · intro lg m1 m2 hnm hlg hlid0 hm1 hm2
    have hres : resolveLeague s uid oid (some nm) = .ok (some lg.league_id) := by
      unfold resolveLeague
      have htru : truthyName (some nm) = true := by
        unfold truthyName
        simpa using hnm
      rw [if_pos htru]
      dsimp only [Option.getD]
      rw [hlg]
      dsimp only
      rw [hm1, hm2]
      rfl
    have htid : truthyId (some lg.league_id) = true := by
      unfold truthyId
      simpa using hlid0
    have hmem : lg ∈ s.leagues := by
      unfold findLeague at hlg
      exact List.mem_of_find?_eq_some hlg
    have hmw : findMember (globalUpdates s (pick uid oid res) (pick oid uid res)
        (calculate_elo_change (pick p1 p2 res).elo_rating (pick p2 p1 res).elo_rating)).league_players
        lg.league_id (pick uid oid res) = some (pick m1 m2 res) := by
      rw [globalUpdates_league_players]
      cases res
      · exact hm1
      · exact hm2
    have hml : findMember (globalUpdates s (pick uid oid res) (pick oid uid res)
        (calculate_elo_change (pick p1 p2 res).elo_rating (pick p2 p1 res).elo_rating)).league_players
        lg.league_id (pick oid uid res) = some (pick m2 m1 res) := by
      rw [globalUpdates_league_players]
      cases res
      · exact hm2
      · exact hm1
    unfold report
    simp only [hp1, hp2, hres]
    rw [if_pos htid]
    dsimp only [Option.getD]
    rw [insertMatch_eq_ok _ uid oid none "completed" (some (pick uid oid res))
      (some lg.league_id)
      (by rw [leagueUpdates_players, globalUpdates_any]
          exact any_of_findPlayer s.players uid p1 hp1)
      (by rw [leagueUpdates_players, globalUpdates_any]
          exact any_of_findPlayer s.players oid p2 hp2)
      (by dsimp only
          rw [leagueUpdates_players, globalUpdates_any]
          exact any_of_findPlayer s.players (pick uid oid res) (pick p1 p2 res) hw)
      (by dsimp only
          exact any_of_mem_league s.leagues lg hmem)]
    dsimp only
    have hga := globalUpdates_findPlayer s (pick uid oid res) (pick oid uid res)
      (calculate_elo_change (pick p1 p2 res).elo_rating (pick p2 p1 res).elo_rating)
      (pick p1 p2 res) (pick p2 p1 res) hnid hw hl
    have hlm := leagueUpdates_findMember
      (globalUpdates s (pick uid oid res) (pick oid uid res)
        (calculate_elo_change (pick p1 p2 res).elo_rating (pick p2 p1 res).elo_rating))
      lg.league_id (pick uid oid res) (pick oid uid res)
      (calculate_elo_change (pick p1 p2 res).elo_rating (pick p2 p1 res).elo_rating)
      (pick m1 m2 res) (pick m2 m1 res) hnid hmw hml
    refine ⟨⟨_, rfl⟩, ?_, ?_, ?_, ?_⟩
    · rw [leagueUpdates_players]
      exact hga.1
    · rw [leagueUpdates_players]
      have hga2 := hga.2
      rw [plus_snd_eq_sub_fst] at hga2
      exact hga2
    · exact hlm.1
    · have hlm2 := hlm.2
      rw [plus_snd_eq_sub_fst] at hlm2
      exact hlm2
  · have hres0 : resolveLeague s uid oid none = .ok none := rfl
    unfold report
    simp only [hp1, hp2, hres0]
    rw [if_neg (by decide : ¬ truthyId none = true)]
    rw [insertMatch_eq_ok _ uid oid none "completed" (some (pick uid oid res)) none
      (by rw [globalUpdates_any]
          exact any_of_findPlayer s.players uid p1 hp1)
      (by rw [globalUpdates_any]
          exact any_of_findPlayer s.players oid p2 hp2)
      (by dsimp only
          rw [globalUpdates_any]
          exact any_of_findPlayer s.players (pick uid oid res) (pick p1 p2 res) hw)
      rfl]
    dsimp only
    have hga := globalUpdates_findPlayer s (pick uid oid res) (pick oid uid res)
      (calculate_elo_change (pick p1 p2 res).elo_rating (pick p2 p1 res).elo_rating)
      (pick p1 p2 res) (pick p2 p1 res) hnid hw hl
    refine ⟨⟨_, rfl⟩, rfl, rfl, ?_, ?_⟩
    · exact hga.1
    · have hga2 := hga.2
      rw [plus_snd_eq_sub_fst] at hga2
      exact hga2

/-! ### Concrete states used by the witnesses -/

/-- A registered player `alice` with the default rating and counters. -/
noncomputable def pW : Player := ⟨1, "alice", 0, 0, 1000⟩

/-- A registered player `bob` with the default rating and counters. -/
noncomputable def pB : Player := ⟨2, "bob", 0, 0, 1000⟩

/-- A league `L` with id 1. -/
def lgL : League := ⟨1, "L"⟩

/-- `alice`'s membership of league `L` with the default league rating. -/
noncomputable def mW : LeaguePlayer := ⟨1, 1, 1000, 0, 0⟩

/-- `bob`'s membership of league `L` with the default league rating. -/
noncomputable def mB : LeaguePlayer := ⟨1, 2, 1000, 0, 0⟩

/-- The freshly initialised store. -/
def sEmpty : DBState := ⟨[], [], [], [], 1, 1⟩

/-- A store with only `alice` registered. -/
noncomputable def sA : DBState := ⟨[pW], [], [], [], 1, 1⟩

/-- A store with `alice` registered and league `L` created by her. -/
noncomputable def sAL : DBState := ⟨[pW], [lgL], [mW], [], 2, 1⟩

/-- A store with only `bob` registered. -/
noncomputable def sOpp : DBState := ⟨[pB], [], [], [], 1, 1⟩

/-- A store with `alice` and `bob` registered and both members of `L`. -/
noncomputable def sTwo : DBState := ⟨[pW, pB], [lgL], [mW, mB], [], 2, 1⟩

/-! ### Witnesses -/

/-- Witness for claim C7: re-registering id 1 on a store that already has
`alice` fails with `AlreadyRegistered` and leaves the store unchanged. -/
theorem register_duplicate_fails_unchanged_witness :
    register sA 1 "carol" = (.error .alreadyRegistered, sA) :=
  register_duplicate_fails_unchanged sA 1 "carol" pW (List.mem_singleton.mpr rfl) rfl

/-- Witness for claim C6: a report between two unregistered users on the
fresh store fails with `NotRegistered` and mutates nothing. -/
theorem report_unregistered_fails_unchanged_witness :
    report sEmpty 1 2 .win none = (.error .notRegistered, sEmpty) :=
  report_unregistered_fails_unchanged sEmpty 1 2 .win none (Or.inl rfl)

/-- Witness for claim C5 at three concrete stores: unregistered creator,
duplicate name, and the successful atomic double insert. -/
theorem create_league_checks_and_atomic_witness :
    create_league sEmpty 1 "L" = (.error .notRegistered, sEmpty) ∧
    create_league sAL 1 "L" = (.error .duplicateName, sAL) ∧
    create_league sA 1 "L" =
      (.ok (), ⟨[pW], [⟨1, "L"⟩], [⟨1, 1, 1000, 0, 0⟩], [], 2, 1⟩) :=
  ⟨(create_league_checks_and_atomic sEmpty 1 "L"
      (by intro m hm; simp [sEmpty] at hm)).1 rfl,
   (create_league_checks_and_atomic sAL 1 "L"
      (by intro m hm
          simp only [sAL] at hm
          rw [List.mem_singleton] at hm
          subst hm
          decide)).2.1 pW rfl ⟨lgL, List.mem_singleton.mpr rfl, rfl⟩,
   (create_league_checks_and_atomic sA 1 "L"
      (by intro m hm; simp [sA] at hm)).2.2 pW rfl
      (by intro l hl; simp [sA] at hl)⟩

/-- Counterexample to claim C10 as stated: on a store where the opponent
(id 2) has a Player row but the scheduling user (id 1) does not, `schedule`
does not insert a pending row — the foreign-key check rejects the INSERT
and the call fails with `ConstraintViolation`. -/
theorem schedule_unregistered_scheduler_counterexample :
    (∃ p ∈ sOpp.players, p.discord_id = 2) ∧
    schedule sOpp 1 2 "2024-01-01 15:00" = (.error .constraintViolation, sOpp) := by
  constructor
  · exact ⟨pB, List.mem_singleton.mpr rfl, rfl⟩
  · rfl

/-- Witness for the amended claim C10 at three concrete stores. -/
theorem schedule_opponent_check_and_fk_witness :
    schedule sEmpty 1 2 "2024-01-01 15:00" = (.error .opponentNotRegistered, sEmpty) ∧
    schedule sOpp 1 2 "2024-01-01 15:00" = (.error .constraintViolation, sOpp) ∧
    schedule sTwo 1 2 "2024-01-01 15:00" =
      (.ok (), ⟨[pW, pB], [lgL], [mW, mB],
        [⟨1, 1, 2, some "2024-01-01 15:00", "pending", none, none⟩], 2, 2⟩) :=
  ⟨(schedule_opponent_check_and_fk sEmpty 1 2 _).1 rfl,
   (schedule_opponent_check_and_fk sOpp 1 2 _).2.1 pB rfl rfl,
   (schedule_opponent_check_and_fk sTwo 1 2 _).2.2 pW pB rfl rfl⟩

/-- Witness for claim C4: `alice` reports a league-scoped win over `bob` in
league `L` (both at rating 1000), and the same report without a league. -/
theorem report_updates_global_and_league_witness :
    ((∃ info, (report sTwo 1 2 .win (some "L")).1 = .ok info) ∧
      findPlayer (report sTwo 1 2 .win (some "L")).2.players 1 =
        some (winnerAfter pW (winnerDelta pW pB .win)) ∧
      findPlayer (report sTwo 1 2 .win (some "L")).2.players 2 =
        some (loserAfter pB (winnerDelta pW pB .win)) ∧
      findMember (report sTwo 1 2 .win (some "L")).2.league_players 1 1 =
        some (memberWinnerAfter mW (winnerDelta pW pB .win)) ∧
      findMember (report sTwo 1 2 .win (some "L")).2.league_players 1 2 =
        some (memberLoserAfter mB (winnerDelta pW pB .win))) ∧
    ((∃ info, (report sTwo 1 2 .win none).1 = .ok info) ∧
      (report sTwo 1 2 .win none).2.league_players = sTwo.league_players ∧
      (report sTwo 1 2 .win none).2.leagues = sTwo.leagues ∧
      findPlayer (report sTwo 1 2 .win none).2.players 1 =
        some (winnerAfter pW (winnerDelta pW pB .win)) ∧
      findPlayer (report sTwo 1 2 .win none).2.players 2 =
        some (loserAfter pB (winnerDelta pW pB .win))) :=
  ⟨(report_updates_global_and_league sTwo 1 2 .win "L" pW pB (by decide) rfl rfl).1
      lgL mW mB (by decide) rfl (by decide) rfl rfl,
   (report_updates_global_and_league sTwo 1 2 .win "L" pW pB (by decide) rfl rfl).2⟩

end BadgeLeague
